import Mathlib

/-!
Verification development for the Affiliate-pro job pipeline.

The definitions below are a shallow embedding of the repository code:
  - src/config/constants.ts            (queue and rate-limit constants)
  - src/types/video.types.ts           (data model)
  - src/store/queue.store.ts           (job store operations)
  - src/background/notification-handler.ts  (QueueProcessor dispatch loop)
  - src/content-scripts/tiktok-controller.ts (both automation agents)

JavaScript `Date.now()` timestamps are modelled as explicit `Nat`
parameters named `now`; the random id produced by `generateId()` is
modelled as an explicit `newId : String` parameter; `Math.random()`
samples are modelled as an explicit sequence parameter.  Optional
string-valued DOM attributes are `Option String`, with JavaScript
truthiness (null and the empty string are falsy) made explicit.
-/

namespace AffiliatePro

/-! ## Constants (src/config/constants.ts, lines 9-22) -/

def MAX_QUEUE_SIZE : Nat := 100

def MAX_CONCURRENT_JOBS : Nat := 3

def DEFAULT_RETRY_COUNT : Nat := 3

/-- RATE_LIMIT.MIN_ACTION_DELAY_MS, src/config/constants.ts line 21. -/
def MIN_ACTION_DELAY_MS : Nat := 700

/-! ## Data model (src/types/video.types.ts) -/

inductive JobStatus where
  | pending
  | processing
  | completed
  | failed
  | cancelled
  deriving DecidableEq, Repr, BEq

inductive Platform where
  | tiktok
  | shopee
  | lazada
  deriving DecidableEq, Repr, BEq

structure ProductInfo where
  name : String
  url : String
  price : Int
  currency : String
  imageUrl : String
  deriving DecidableEq, Repr

structure VideoSettings where
  template : String
  duration : Nat
  aspectRatio : String
  style : String
  includeMusic : Bool
  includeVoiceover : Bool
  includePriceSticker : Bool
  includeCTA : Bool
  deriving DecidableEq, Repr

structure VideoJob where
  id : String
  status : JobStatus
  progress : Int
  product : ProductInfo
  prompt : String
  customPrompt : Option String
  settings : VideoSettings
  videoUrl : Option String
  thumbnailUrl : Option String
  localPath : Option String
  flowJobId : Option String
  platforms : List Platform
  scheduledAt : Option Nat
  createdAt : Nat
  updatedAt : Nat
  completedAt : Option Nat
  error : Option String
  retryCount : Nat
  deriving DecidableEq, Repr

structure QueueStats where
  total : Nat
  pending : Nat
  processing : Nat
  completed : Nat
  failed : Nat
  deriving DecidableEq, Repr

structure QueueState where
  jobs : List VideoJob
  activeJobId : Option String
  isProcessing : Bool
  stats : QueueStats
  dailyLimit : Nat
  dailyCreated : Nat
  deriving DecidableEq, Repr

/-- initialState, src/store/queue.store.ts lines 47-60. -/
def initialState : QueueState :=
  { jobs := []
    activeJobId := none
    isProcessing := false
    stats := ⟨0, 0, 0, 0, 0⟩
    dailyLimit := 50
    dailyCreated := 0 }

/-- Parameters accepted by addJob (src/store/queue.store.ts lines 12-19). -/
structure AddJobParams where
  product : ProductInfo
  prompt : String
  customPrompt : Option String
  settings : VideoSettings
  platforms : List Platform
  scheduledAt : Option Nat
  deriving DecidableEq, Repr

/-! ## Job store operations (src/store/queue.store.ts)

Each operation takes the current `QueueState` and returns the next one;
`now` stands for the `Date.now()` value read during the call. -/

/-- addJob, src/store/queue.store.ts lines 95-125.  Throws when the queue
is full, otherwise appends a fresh pending job.  `newId` stands for the
value returned by `generateId()`. -/
def addJob (s : QueueState) (params : AddJobParams) (newId : String) (now : Nat) :
    Except String (VideoJob × QueueState) :=
  if MAX_QUEUE_SIZE ≤ s.jobs.length then
    Except.error ("Queue limit reached (" ++ toString MAX_QUEUE_SIZE ++ ")")
  else
    let newJob : VideoJob :=
      { id := newId
        status := JobStatus.pending
        progress := 0
        product := params.product
        prompt := params.prompt
        customPrompt := params.customPrompt
        settings := params.settings
        videoUrl := none
        thumbnailUrl := none
        localPath := none
        flowJobId := none
        platforms := params.platforms
        scheduledAt := params.scheduledAt
        createdAt := now
        updatedAt := now
        completedAt := none
        error := none
        retryCount := 0 }
    Except.ok (newJob, { s with jobs := s.jobs ++ [newJob] })

/-- startJob, src/store/queue.store.ts lines 168-179.  No validation of
the current status: every job whose id matches is set to processing. -/
def startJob (s : QueueState) (id : String) (now : Nat) : QueueState :=
  { s with
    jobs := s.jobs.map (fun job =>
      if job.id = id then
        { job with status := JobStatus.processing, progress := 0, updatedAt := now }
      else job)
    activeJobId := some id
    isProcessing := true }

/-- completeJob, src/store/queue.store.ts lines 181-201. -/
def completeJob (s : QueueState) (id : String) (videoUrl : String)
    (thumbnailUrl : Option String) (now : Nat) : QueueState :=
  { s with
    jobs := s.jobs.map (fun job =>
      if job.id = id then
        { job with
          status := JobStatus.completed
          progress := 100
          videoUrl := some videoUrl
          thumbnailUrl := thumbnailUrl
          completedAt := some now
          updatedAt := now }
      else job)
    activeJobId := none
    isProcessing := false
    dailyCreated := s.dailyCreated + 1 }

/-- failJob, src/store/queue.store.ts lines 203-219. -/
def failJob (s : QueueState) (id : String) (error : String) (now : Nat) : QueueState :=
  { s with
    jobs := s.jobs.map (fun job =>
      if job.id = id then
        { job with status := JobStatus.failed, error := some error, updatedAt := now }
      else job)
    activeJobId := none
    isProcessing := false }

/-- retryJob, src/store/queue.store.ts lines 221-245.  Silently returns
when the job is absent or its retryCount reached DEFAULT_RETRY_COUNT. -/
def retryJob (s : QueueState) (id : String) (now : Nat) : QueueState :=
  match s.jobs.find? (fun j => j.id == id) with
  | none => s
  | some job =>
    if DEFAULT_RETRY_COUNT ≤ job.retryCount then s
    else
      { s with
        jobs := s.jobs.map (fun j =>
          if j.id = id then
            { j with
              status := JobStatus.pending
              progress := 0
              error := none
              retryCount := j.retryCount + 1
              updatedAt := now }
          else j) }

/-- cancelJob, src/store/queue.store.ts lines 247-258.  No validation of
the current status. -/
def cancelJob (s : QueueState) (id : String) (now : Nat) : QueueState :=
  { s with
    jobs := s.jobs.map (fun job =>
      if job.id = id then
        { job with status := JobStatus.cancelled, updatedAt := now }
      else job)
    activeJobId := if s.activeJobId = some id then none else s.activeJobId
    isProcessing := if s.activeJobId = some id then false else s.isProcessing }

/-- updateProgress, src/store/queue.store.ts lines 260-266.  Overwrites
the progress field with the given value, unconditionally. -/
def updateProgress (s : QueueState) (id : String) (progress : Int) (now : Nat) : QueueState :=
  { s with
    jobs := s.jobs.map (fun job =>
      if job.id = id then { job with progress := progress, updatedAt := now } else job) }

/-- getStats, src/store/queue.store.ts lines 296-305. -/
def getStats (s : QueueState) : QueueStats :=
  { total := s.jobs.length
    pending := (s.jobs.filter (fun j => j.status == JobStatus.pending)).length
    processing := (s.jobs.filter (fun j => j.status == JobStatus.processing)).length
    completed := (s.jobs.filter (fun j => j.status == JobStatus.completed)).length
    failed := (s.jobs.filter (fun j => j.status == JobStatus.failed)).length }

/-! ## QueueProcessor dispatch (src/background/notification-handler.ts)

The background QueueProcessor keeps an `activeJobs` set (modelled as a
duplicate-free list of job ids built by the insertions below) and a
`maxConcurrent` field initialised to 2 (line 242).  `processNextInQueue`
(lines 314-339) walks the pending jobs; for each job it first re-checks
the size bound and breaks when it is reached, then calls `processJob`,
whose synchronous prefix (lines 253-262) rejects ids already in the set
and otherwise inserts the id.  JavaScript runs that prefix to completion
before the loop resumes, so the walk is modelled as a sequential fold. -/

namespace QueueProcessor

def maxConcurrent : Nat := 2

/-- The dispatch walk inside processNextInQueue (lines 320-332). -/
def dispatchLoop : List String → List VideoJob → List String
  | active, [] => active
  | active, job :: rest =>
    if maxConcurrent ≤ active.length then active
    else if job.id ∈ active then dispatchLoop active rest
    else dispatchLoop (active ++ [job.id]) rest

/-- processNextInQueue (lines 314-339): early return when paused or at
capacity, else the dispatch walk over the pending jobs. -/
def processNextInQueue (isPaused : Bool) (active : List String)
    (pendingJobs : List VideoJob) : List String :=
  if isPaused = true ∨ maxConcurrent ≤ active.length then active
  else dispatchLoop active pendingJobs

end QueueProcessor

/-! ## Automation agents (src/content-scripts/tiktok-controller.ts)

Timed traces: every page interaction is recorded as a pair of the
millisecond at which it is dispatched and the kind of event.  Time is
advanced only by the explicit sleeps in the source; the model assumes
the surrounding synchronous work takes no time. -/

inductive PageEvent where
  | click
  | mouseenter
  | inputEvent
  | changeEvent
  deriving DecidableEq, Repr

/-- FlowController.enforceRateLimit (lines 592-601; the TikTok copy is
lines 95-104).  Given the recorded lastActionTime and the current clock,
returns the time at which the awaited sleep resolves; the controller
stores that value as the new lastActionTime. -/
def enforceRateLimit (lastActionTime now : Nat) : Nat :=
  if now - lastActionTime < MIN_ACTION_DELAY_MS then
    now + (MIN_ACTION_DELAY_MS - (now - lastActionTime))
  else now

/-- The per-character loop of FlowController.typeText (lines 614-619):
dispatch an input event for character `i`, then sleep 30 + rand(i) ms,
where `rand i` models the sample `Math.random() * 50` (so rand i ≤ 50).
Returns the event trace and the finishing time. -/
def typeCharsEvents (rand : Nat → Nat) : Nat → Nat → List Char → List (Nat × PageEvent) × Nat
  | _, t, [] => ([], t)
  | i, t, _ :: cs =>
    let rest := typeCharsEvents rand (i + 1) (t + (30 + rand i)) cs
    ((t, PageEvent.inputEvent) :: rest.1, rest.2)

/-- FlowController.typeText (lines 606-622): clear the field (one input
event at the start), type the characters, dispatch a change event. -/
def typeTextEvents (rand : Nat → Nat) (t : Nat) (text : List Char) :
    List (Nat × PageEvent) × Nat :=
  let chars := typeCharsEvents rand 0 t text
  ((t, PageEvent.inputEvent) :: chars.1 ++ [(chars.2, PageEvent.changeEvent)], chars.2)

/-- FlowController.clickElement (lines 627-641): scroll, sleep 200,
mouseenter, sleep 100, click, sleep 300.  Returns the trace and the
finishing time; no rate limit is consulted. -/
def clickElementEvents (t : Nat) : List (Nat × PageEvent) × Nat :=
  ([(t + 200, PageEvent.mouseenter), (t + 300, PageEvent.click)], t + 600)

/-- FlowControllerState (lines 430-441). -/
structure FlowControllerState where
  isProcessing : Bool
  currentJobId : Option String
  lastActionTime : Nat
  deriving DecidableEq, Repr

/-- TikTokControllerState (lines 18-29). -/
structure TikTokControllerState where
  isUploading : Bool
  currentJobId : Option String
  lastActionTime : Nat
  deriving DecidableEq, Repr

/-- Response shape of FlowController.handleCreateVideo (line 662). -/
structure CreateVideoResult where
  success : Bool
  videoUrl : Option String
  error : Option String
  deriving DecidableEq, Repr

/-- Response shape of TikTokController.handleUploadVideo (line 137). -/
structure UploadVideoResult where
  success : Bool
  postId : Option String
  error : Option String
  deriving DecidableEq, Repr

/-- The busy rejection of FlowController.handleCreateVideo (line 664). -/
def busyCreateResult : CreateVideoResult :=
  { success := false, videoUrl := none, error := some "Another video is being processed" }

/-- The busy rejection of TikTokController.handleUploadVideo (line 139). -/
def busyUploadResult : UploadVideoResult :=
  { success := false, postId := none, error := some "Another upload in progress" }

/-- FlowController.handleCreateVideo (lines 662-717), busy guard and
try/finally skeleton.  The command body (lines 670-716, which runs only
when the agent is idle) is abstracted as `body`, returning its response,
its page-interaction trace and the controller state it leaves behind;
the finally block then resets isProcessing and currentJobId. -/
def handleCreateVideo
    (body : FlowControllerState → CreateVideoResult × List (Nat × PageEvent) × FlowControllerState)
    (st : FlowControllerState) (jobId : String) :
    CreateVideoResult × List (Nat × PageEvent) × FlowControllerState :=
  if st.isProcessing then (busyCreateResult, [], st)
  else
    let r := body { st with isProcessing := true, currentJobId := some jobId }
    (r.1, r.2.1, { r.2.2 with isProcessing := false, currentJobId := none })

/-- TikTokController.handleUploadVideo (lines 137-227), busy guard and
try/finally skeleton, abstracted the same way. -/
def handleUploadVideo
    (body : TikTokControllerState → UploadVideoResult × List (Nat × PageEvent) × TikTokControllerState)
    (st : TikTokControllerState) (jobId : String) :
    UploadVideoResult × List (Nat × PageEvent) × TikTokControllerState :=
  if st.isUploading then (busyUploadResult, [], st)
  else
    let r := body { st with isUploading := true, currentJobId := some jobId }
    (r.1, r.2.1, { r.2.2 with isUploading := false, currentJobId := none })

/-! ## Completion-detection loops

The page is sampled once per loop iteration; `pages k` is the snapshot
the k-th poll observes.  DOM string attributes are `Option String`
(`none` = attribute/element absent) and JavaScript truthiness is made
explicit: null and the empty string are falsy.  The URL-recognition
predicate `isSigned` stands for FlowController.isFlowSignedVideoUrl
(lines 515-528), whose WHATWG URL parsing lies outside the embedding;
the loop theorems hold for every such predicate. -/

/-- JavaScript truthiness on an optional string attribute. -/
def truthyStr : Option String → Option String
  | none => none
  | some s => if s.isEmpty then none else some s

/-- `a || b` on optional string attributes. -/
def jsOrStr (a b : Option String) : Option String :=
  match truthyStr a with
  | some s => some s
  | none => truthyStr b

/-- `s || d` with a string default (used for `textContent || fallback`). -/
def jsOrDefault (s : Option String) (d : String) : String :=
  match truthyStr s with
  | some t => t
  | none => d

/-- `attr && isSigned(attr)` returning the matched url. -/
def signedTruthy (isSigned : String → Bool) (s : Option String) : Option String :=
  match truthyStr s with
  | some u => if isSigned u then some u else none
  | none => none

/-- A `<video>` element as inspected by findGeneratedVideoUrl. -/
structure VideoEl where
  currentSrc : Option String
  src : Option String
  sources : List String
  deriving DecidableEq, Repr

/-- A link/button candidate carrying href and data-url attributes. -/
structure LinkEl where
  href : Option String
  dataUrl : Option String
  deriving DecidableEq, Repr

/-- The Flow page as observed by one iteration of
FlowController.waitForCompletion: in source order, the elements read by
findGeneratedVideoUrl (lines 530-559), the download button and video
preview (lines 891-908), and the error element with its textContent
(lines 911-914; `some tc` means the element is present). -/
structure FlowPage where
  videos : List VideoEl
  linkCandidates : List LinkEl
  downloadButton : Option LinkEl
  videoPreview : Option VideoEl
  errorText : Option (Option String)
  deriving DecidableEq, Repr

/-- The per-video part of findGeneratedVideoUrl (lines 532-543):
currentSrc and src filtered for truthiness then searched with isSigned,
then the `<source>` children. -/
def findInVideo (isSigned : String → Bool) (v : VideoEl) : Option String :=
  match signedTruthy isSigned v.currentSrc with
  | some u => some u
  | none =>
    match signedTruthy isSigned v.src with
    | some u => some u
    | none => v.sources.find? (fun s => !s.isEmpty && isSigned s)

/-- The per-link part of findGeneratedVideoUrl (lines 550-556): href
first, then the data-url attribute. -/
def findInLink (isSigned : String → Bool) (el : LinkEl) : Option String :=
  match signedTruthy isSigned el.href with
  | some u => some u
  | none => signedTruthy isSigned el.dataUrl

/-- FlowController.findGeneratedVideoUrl (lines 530-559). -/
def findGeneratedVideoUrl (isSigned : String → Bool) (p : FlowPage) : Option String :=
  match p.videos.findSome? (findInVideo isSigned) with
  | some u => some u
  | none => p.linkCandidates.findSome? (findInLink isSigned)

/-- The video-preview fallback inside the download-button branch
(lines 894-901). -/
def previewUrl (isSigned : String → Bool) : Option VideoEl → Option String
  | none => none
  | some v =>
    match signedTruthy isSigned v.currentSrc with
    | some u => some u
    | none => signedTruthy isSigned v.src

/-- The error check of one iteration (lines 911-914). -/
def errorOutcome (p : FlowPage) : Option (Except String String) :=
  match p.errorText with
  | some tc => some (Except.error (jsOrDefault tc "Generation failed"))
  | none => none

/-- One iteration of the FlowController.waitForCompletion body
(lines 884-923), in source order: generated url, then the
download-button branch, then the error element.  `none` means the
iteration observed nothing terminal and sleeps 2000 ms. -/
def checkCompletionPoll (isSigned : String → Bool) (p : FlowPage) :
    Option (Except String String) :=
  match findGeneratedVideoUrl isSigned p with
  | some u => some (Except.ok u)
  | none =>
    let fromDownload : Option String :=
      match p.downloadButton with
      | some btn =>
        (match previewUrl isSigned p.videoPreview with
         | some u => some u
         | none => signedTruthy isSigned (jsOrStr btn.href btn.dataUrl))
      | none => none
    match fromDownload with
    | some u => some (Except.ok u)
    | none => errorOutcome p

/-- Number of polls of FlowController.waitForCompletion: the loop guard
is `elapsed < 5 * 60 * 1000` with a 2000 ms sleep per iteration, so the
polls run at elapsed times 2000 * k for 2000 * k < 300000, i.e. exactly
for k < 150. -/
def FLOW_MAX_WAIT_POLLS : Nat := 150

def flowWaitLoop (isSigned : String → Bool) (pages : Nat → FlowPage) :
    Nat → Nat → Except String String
  | 0, _ => Except.error "Video generation timed out"
  | fuel + 1, k =>
    match checkCompletionPoll isSigned (pages k) with
    | some r => r
    | none => flowWaitLoop isSigned pages fuel (k + 1)

/-- FlowController.waitForCompletion (lines 880-926). -/
def waitForCompletion (isSigned : String → Bool) (pages : Nat → FlowPage) :
    Except String String :=
  flowWaitLoop isSigned pages FLOW_MAX_WAIT_POLLS 0

/-- The TikTok upload page as observed by one iteration of
TikTokController.waitForUploadComplete (lines 243-264): the
upload-complete indicator, the progress element (read only for
logging), and the error element with its textContent, which that loop
never queries. -/
structure TikTokUploadPage where
  uploadComplete : Bool
  uploadProgress : Option String
  errorText : Option (Option String)
  deriving DecidableEq, Repr

/-- Number of polls of waitForUploadComplete: loop guard
`elapsed < 60000` with a 1000 ms sleep, so polls run for k < 60. -/
def UPLOAD_MAX_WAIT_POLLS : Nat := 60

def uploadWaitLoop (pages : Nat → TikTokUploadPage) : Nat → Nat → Except String Unit
  | 0, _ => Except.error "Upload timeout"
  | fuel + 1, k =>
    if (pages k).uploadComplete then Except.ok ()
    else uploadWaitLoop pages fuel (k + 1)

/-- TikTokController.waitForUploadComplete (lines 243-264). -/
def waitForUploadComplete (pages : Nat → TikTokUploadPage) : Except String Unit :=
  uploadWaitLoop pages UPLOAD_MAX_WAIT_POLLS 0

/-! ## The documented state machine

The store operations perform no status validation themselves; the
transitions documented in the spec (section 4.1) are captured as a
relation that applies an operation only when every job carrying the
targeted id is in the required source status.  The outcome/error
invariant is then proved for every run of this relation. -/

/-- The populated-outcome invariant for a single job: completed jobs
carry a videoUrl and no error, failed jobs carry an error and no
videoUrl, jobs not yet dispatched or in flight carry neither. -/
def jobInv (j : VideoJob) : Prop :=
  (j.status = JobStatus.pending → j.videoUrl = none ∧ j.error = none)
  ∧ (j.status = JobStatus.processing → j.videoUrl = none ∧ j.error = none)
  ∧ (j.status = JobStatus.completed → j.videoUrl.isSome ∧ j.error = none)
  ∧ (j.status = JobStatus.failed → j.error.isSome ∧ j.videoUrl = none)

def storeInv (s : QueueState) : Prop := ∀ j ∈ s.jobs, jobInv j

/-- One store operation applied along a transition the documented state
machine allows. -/
inductive GuardedStep : QueueState → QueueState → Prop where
  | add (s : QueueState) (params : AddJobParams) (newId : String) (now : Nat)
      (j : VideoJob) (s' : QueueState)
      (h : addJob s params newId now = Except.ok (j, s')) :
      GuardedStep s s'
  | start (s : QueueState) (id : String) (now : Nat)
      (h : ∀ j ∈ s.jobs, j.id = id → j.status = JobStatus.pending) :
      GuardedStep s (startJob s id now)
  | complete (s : QueueState) (id videoUrl : String) (thumbnailUrl : Option String) (now : Nat)
      (h : ∀ j ∈ s.jobs, j.id = id → j.status = JobStatus.processing) :
      GuardedStep s (completeJob s id videoUrl thumbnailUrl now)
  | fail (s : QueueState) (id error : String) (now : Nat)
      (h : ∀ j ∈ s.jobs, j.id = id → j.status = JobStatus.processing) :
      GuardedStep s (failJob s id error now)
  | retry (s : QueueState) (id : String) (now : Nat)
      (h : ∀ j ∈ s.jobs, j.id = id → j.status = JobStatus.failed) :
      GuardedStep s (retryJob s id now)
  | cancel (s : QueueState) (id : String) (now : Nat)
      (h : ∀ j ∈ s.jobs, j.id = id →
        j.status = JobStatus.pending ∨ j.status = JobStatus.processing) :
      GuardedStep s (cancelJob s id now)

/-! ## Concrete test states

Fixtures used by counterexamples and witnesses.  `cexState1` through
`cexState4` replay a concrete run of the store operations from
`initialState`. -/

def cexProduct : ProductInfo :=
  { name := "Test Product", url := "https://example.com", price := 999,
    currency := "THB", imageUrl := "" }

def cexSettings : VideoSettings :=
  { template := "product-review", duration := 30, aspectRatio := "9:16",
    style := "dynamic", includeMusic := true, includeVoiceover := false,
    includePriceSticker := true, includeCTA := true }

def cexParams : AddJobParams :=
  { product := cexProduct, prompt := "Test prompt", customPrompt := none,
    settings := cexSettings, platforms := [Platform.tiktok], scheduledAt := none }

/-- The job addJob appends for `cexParams` with id "job-1" at time 0. -/
def cexJob1 : VideoJob :=
  { id := "job-1", status := JobStatus.pending, progress := 0,
    product := cexProduct, prompt := "Test prompt", customPrompt := none,
    settings := cexSettings, videoUrl := none, thumbnailUrl := none,
    localPath := none, flowJobId := none, platforms := [Platform.tiktok],
    scheduledAt := none, createdAt := 0, updatedAt := 0, completedAt := none,
    error := none, retryCount := 0 }

def cexState1 : QueueState := { initialState with jobs := [cexJob1] }

def cexState2 : QueueState := startJob cexState1 "job-1" 1

def cexState3 : QueueState := failJob cexState2 "job-1" "network error" 2

def cexState4 : QueueState := completeJob cexState3 "job-1" "https://example.com/v.mp4" none 3

/-- A pending-job fixture. -/
def mkPendingJob (id : String) : VideoJob := { cexJob1 with id := id }

/-- Four pending jobs, for exercising startJob without any guard. -/
def conc0 : QueueState :=
  { initialState with
    jobs := [mkPendingJob "a", mkPendingJob "b", mkPendingJob "c", mkPendingJob "d"] }

def conc4 : QueueState :=
  startJob (startJob (startJob (startJob conc0 "a" 1) "b" 2) "c" 3) "d" 4

/-- A failed job that exhausted its retries. -/
def capJob : VideoJob :=
  { cexJob1 with status := JobStatus.failed, error := some "boom", retryCount := 3 }

def capState : QueueState := { initialState with jobs := [capJob] }

/-- The job stored in cexState3: failed with the recorded error. -/
def cexFailedJob : VideoJob :=
  { cexJob1 with status := JobStatus.failed, error := some "network error", updatedAt := 2 }

/-- Progress updates applied to the processing job of cexState2. -/
def prog50 : QueueState := updateProgress cexState2 "job-1" 50 5

def prog10 : QueueState := updateProgress prog50 "job-1" 10 6

def prog150 : QueueState := updateProgress prog10 "job-1" 150 7

/-- An agent already running a command. -/
def busyFlowState : FlowControllerState :=
  { isProcessing := true, currentJobId := some "job-0", lastActionTime := 0 }

def busyTikTokState : TikTokControllerState :=
  { isUploading := true, currentJobId := some "job-0", lastActionTime := 0 }

/-- A two-job state with an active job, for the frame-effect witness. -/
def frameState : QueueState :=
  { initialState with
    jobs := [mkPendingJob "a", mkPendingJob "b"],
    activeJobId := some "a", isProcessing := true }

/-- A TikTok upload page that shows an error indicator and never the
upload-complete indicator. -/
def errorOnlyUploadPage : TikTokUploadPage :=
  { uploadComplete := false, uploadProgress := none,
    errorText := some (some "Post failed by page") }

/-- A Flow page on which no terminal condition ever fires. -/
def emptyFlowPage : FlowPage :=
  { videos := [], linkCandidates := [], downloadButton := none,
    videoPreview := none, errorText := none }

/-! ## Theorems -/

/-- Claim C1 counterexample: cancelJob applied to a completed job is not
rejected — it silently marks the job cancelled (the operation returns a
plain state, it has no error channel), so the invalid transition
completed → cancelled mutates state without a caller-visible error. -/
theorem cancelJob_mutates_completed_job :
    cexState4.jobs.map VideoJob.status = [JobStatus.completed]
    ∧ (cancelJob cexState4 "job-1" 4).jobs.map VideoJob.status = [JobStatus.cancelled]
    ∧ cancelJob cexState4 "job-1" 4 ≠ cexState4 := by
  exact ⟨by decide, by decide, by decide⟩

/-- Claim C1 amended: the lifecycle operations perform no transition
validation and reject nothing with an error; the only guarded transition
operation is retryJob, and it rejects silently, leaving the whole store
unchanged when the job is absent or its retryCount reached the cap. -/
theorem retryJob_silent_reject (s : QueueState) (id : String) (now : Nat)
    (h : ∀ job, s.jobs.find? (fun j => j.id == id) = some job →
      DEFAULT_RETRY_COUNT ≤ job.retryCount) :
    retryJob s id now = s := by
  unfold retryJob
  cases hfind : s.jobs.find? (fun j => j.id == id) with
  | none => rfl
  | some job =>
    dsimp only
    rw [if_pos (h job hfind)]

theorem retryJob_silent_reject_witness : retryJob capState "job-1" 9 = capState := by
  apply retryJob_silent_reject
  intro job hj
  have h1 : capState.jobs.find? (fun j => j.id == "job-1") = some capJob := by decide
  rw [h1] at hj
  cases hj
  decide

/-- Claim C2 counterexample: the store guards no transitions, so driving
a job through failJob and then completeJob (replayed concretely from
initialState in cexState1-cexState4) yields a job that has left
processing for the terminal state completed while BOTH videoUrl and
error are populated. -/
theorem completed_job_with_error_populated :
    addJob initialState cexParams "job-1" 0 = Except.ok (cexJob1, cexState1)
    ∧ cexState4.jobs.map (fun j => (j.status, j.videoUrl, j.error)) =
        [(JobStatus.completed, some "https://example.com/v.mp4", some "network error")] := by
  exact ⟨by rfl, by decide⟩

/-- The dispatch walk never grows the active set beyond maxConcurrent. -/
lemma dispatchLoop_length_le (jobs : List VideoJob) :
    ∀ active : List String,
      (QueueProcessor.dispatchLoop active jobs).length ≤
        max active.length QueueProcessor.maxConcurrent := by
  induction jobs with
  | nil =>
    intro active
    exact le_max_left _ _
  | cons job rest ih =>
    intro active
    unfold QueueProcessor.dispatchLoop
    by_cases hcap : QueueProcessor.maxConcurrent ≤ active.length
    · rw [if_pos hcap]
      exact le_max_left _ _
    · rw [if_neg hcap]
      by_cases hmem : job.id ∈ active
      · rw [if_pos hmem]
        exact ih active
      · rw [if_neg hmem]
        have h2 := ih (active ++ [job.id])
        rw [List.length_append] at h2
        have hm : QueueProcessor.maxConcurrent = 2 := rfl
        rw [hm] at h2 hcap ⊢
        have hle : active.length + [job.id].length ≤ 2 := by
          have : [job.id].length = 1 := rfl
          omega
        rw [max_eq_right hle] at h2
        exact le_trans h2 (le_max_right _ _)

/-- Claim C3 counterexample: the job store itself never consults any
concurrency bound — four unguarded startJob calls leave four jobs in
status processing at once, exceeding MAX_CONCURRENT_JOBS = 3. -/
theorem startJob_exceeds_concurrency_limit :
    (getStats conc4).processing = 4
    ∧ MAX_CONCURRENT_JOBS < (getStats conc4).processing := by
  exact ⟨by decide, by decide⟩

/-- Claim C3 amended: the bound that does exist lives in the background
QueueProcessor, whose dispatch walk never grows its activeJobs set
beyond its own maxConcurrent field, which is 2 — MAX_CONCURRENT_JOBS = 3
is not the limit it consults. -/
theorem processNextInQueue_bounded :
    (∀ (isPaused : Bool) (active : List String) (pendingJobs : List VideoJob),
        (QueueProcessor.processNextInQueue isPaused active pendingJobs).length ≤
          max active.length QueueProcessor.maxConcurrent)
    ∧ QueueProcessor.maxConcurrent = 2
    ∧ QueueProcessor.maxConcurrent ≠ MAX_CONCURRENT_JOBS := by
  refine ⟨?_, rfl, by decide⟩
  intro isPaused active pendingJobs
  unfold QueueProcessor.processNextInQueue
  by_cases h : isPaused = true ∨ QueueProcessor.maxConcurrent ≤ active.length
  · rw [if_pos h]
    exact le_max_left _ _
  · rw [if_neg h]
    exact dispatchLoop_length_le pendingJobs active

/-- The update retryJob applies to every job carrying the retried id
(src/store/queue.store.ts lines 233-243). -/
def retriedJob (j : VideoJob) (now : Nat) : VideoJob :=
  { j with
    status := JobStatus.pending
    progress := 0
    error := none
    retryCount := j.retryCount + 1
    updatedAt := now }

/-- Claim C4: retryJob on a job found by id leaves the whole store
unchanged when retryCount reached DEFAULT_RETRY_COUNT = 3; otherwise it
sets the job back to pending, zeroes its progress, clears its error and
increments retryCount by exactly one (every job carrying the id is so
updated, and no other job changes). -/
theorem retryJob_state_machine (s : QueueState) (id : String) (now : Nat) (job : VideoJob)
    (hfind : s.jobs.find? (fun j => j.id == id) = some job) :
    (DEFAULT_RETRY_COUNT ≤ job.retryCount → retryJob s id now = s)
    ∧ (job.retryCount < DEFAULT_RETRY_COUNT →
        (retryJob s id now).jobs.length = s.jobs.length
        ∧ (∀ (i : Nat) (jj : VideoJob), s.jobs[i]? = some jj → jj.id = id →
            (retryJob s id now).jobs[i]? = some (retriedJob jj now))
        ∧ (∀ (i : Nat) (jj : VideoJob), s.jobs[i]? = some jj → jj.id ≠ id →
            (retryJob s id now).jobs[i]? = some jj)) := by
  constructor
  · intro hcap
    unfold retryJob
    rw [hfind]
    dsimp only
    rw [if_pos hcap]
  · intro hlt
    have hres : (retryJob s id now).jobs = s.jobs.map (fun j =>
        if j.id = id then retriedJob j now else j) := by
      unfold retryJob retriedJob
      rw [hfind]
      dsimp only
      rw [if_neg (not_le.mpr hlt)]
    refine ⟨by rw [hres]; exact List.length_map _ _, ?_, ?_⟩
    · intro i jj hget hid
      simp [hres, List.getElem?_map, hget, hid, retriedJob]
    · intro i jj hget hid
      simp [hres, List.getElem?_map, hget, hid]

theorem retryJob_state_machine_witness :
    (retryJob cexState3 "job-1" 9).jobs[0]? = some (retriedJob cexFailedJob 9) := by
  have h := retryJob_state_machine cexState3 "job-1" 9 cexFailedJob (by decide)
  exact (h.2 (by decide)).2.1 0 cexFailedJob (by decide) (by decide)

/-- Claim C5 counterexample: updateProgress neither clamps nor enforces
monotonicity — on a processing job it accepts 50, then lowers it to 10,
then pushes it to 150, outside the 0-100 range. -/
theorem updateProgress_not_clamped :
    prog50.jobs.map (fun j => (j.status, j.progress)) = [(JobStatus.processing, (50 : Int))]
    ∧ prog10.jobs.map (fun j => (j.status, j.progress)) = [(JobStatus.processing, (10 : Int))]
    ∧ prog150.jobs.map (fun j => (j.status, j.progress)) = [(JobStatus.processing, (150 : Int))]
    ∧ (10 : Int) < 50 ∧ (100 : Int) < 150 := by
  exact ⟨by decide, by decide, by decide, by decide, by decide⟩

/-- The update updateProgress applies to the matching job
(src/store/queue.store.ts lines 262-264). -/
def progressedJob (j : VideoJob) (p : Int) (now : Nat) : VideoJob :=
  { j with progress := p, updatedAt := now }

/-- Claim C5 amended: the store does not enforce the progress contract;
updateProgress overwrites the field with whatever the caller passes, so
range and monotonicity hold exactly when every call passes an in-range
value no smaller than the current one, as proved here. -/
theorem updateProgress_monotone_for_disciplined_callers (s : QueueState) (id : String)
    (p : Int) (now : Nat) (h0 : 0 ≤ p) (h100 : p ≤ 100) :
    (updateProgress s id p now).jobs.length = s.jobs.length
    ∧ ∀ (i : Nat) (j : VideoJob), s.jobs[i]? = some j → j.id = id → j.progress ≤ p →
        (updateProgress s id p now).jobs[i]? = some (progressedJob j p now)
        ∧ 0 ≤ (progressedJob j p now).progress
        ∧ (progressedJob j p now).progress ≤ 100
        ∧ j.progress ≤ (progressedJob j p now).progress
        ∧ (progressedJob j p now).status = j.status := by
  constructor
  · unfold updateProgress
    exact List.length_map _ _
  · intro i j hget hid hmono
    refine ⟨?_, h0, h100, hmono, rfl⟩
    unfold updateProgress
    simp [List.getElem?_map, hget, hid, progressedJob]

theorem updateProgress_monotone_witness :
    (updateProgress cexState2 "job-1" 50 5).jobs.length = cexState2.jobs.length :=
  (updateProgress_monotone_for_disciplined_callers cexState2 "job-1" 50 5
    (by decide) (by decide)).1

/-- Claim C6: addJob fails with the capacity error exactly when the jobs
list is already full (the guard is MAX_QUEUE_SIZE ≤ length, and along
store runs the length never passes MAX_QUEUE_SIZE, so the reachable
failing case is length = 100); otherwise it appends exactly one new
pending job with progress 0, retryCount 0 and the freshly generated id,
leaving every pre-existing job and all other state fields unchanged. -/
theorem addJob_capacity_and_append (s : QueueState) (params : AddJobParams)
    (newId : String) (now : Nat) :
    (MAX_QUEUE_SIZE ≤ s.jobs.length ↔
        addJob s params newId now = Except.error "Queue limit reached (100)")
    ∧ (∀ j s2, addJob s params newId now = Except.ok (j, s2) →
        s2.jobs = s.jobs ++ [j]
        ∧ j.id = newId ∧ j.status = JobStatus.pending ∧ j.progress = 0
        ∧ j.retryCount = 0 ∧ j.videoUrl = none ∧ j.error = none
        ∧ j.createdAt = now ∧ j.updatedAt = now ∧ j.scheduledAt = params.scheduledAt
        ∧ s2.activeJobId = s.activeJobId ∧ s2.isProcessing = s.isProcessing
        ∧ s2.dailyCreated = s.dailyCreated ∧ s2.dailyLimit = s.dailyLimit
        ∧ s.jobs.length < MAX_QUEUE_SIZE) := by
  by_cases hfull : MAX_QUEUE_SIZE ≤ s.jobs.length
  · constructor
    · constructor
      · intro _
        unfold addJob
        rw [if_pos hfull]
        rfl
      · intro _
        exact hfull
    · intro j s2 hok
      unfold addJob at hok
      rw [if_pos hfull] at hok
      exact absurd hok (by simp)
  · constructor
    · constructor
      · intro h
        exact absurd h hfull
      · intro herr
        unfold addJob at herr
        rw [if_neg hfull] at herr
        exact absurd herr (by simp)
    · intro j s2 hok
      unfold addJob at hok
      rw [if_neg hfull] at hok
      simp only [Except.ok.injEq, Prod.mk.injEq] at hok
      obtain ⟨hj, hs⟩ := hok
      subst hj
      subst hs
      refine ⟨rfl, rfl, rfl, rfl, rfl, rfl, rfl, rfl, rfl, rfl, rfl, rfl, rfl, rfl, ?_⟩
      exact lt_of_not_le hfull

theorem addJob_capacity_witness :
    cexState1.jobs = initialState.jobs ++ [cexJob1]
    ∧ cexJob1.id = "job-1" ∧ cexJob1.status = JobStatus.pending := by
  have h := (addJob_capacity_and_append initialState cexParams "job-1" 0).2
    cexJob1 cexState1 (by rfl)
  exact ⟨h.1, h.2.1, h.2.2.1⟩

/-- Claim C7: each agent holds at most one active command.  When the
in-progress flag is set, handleCreateVideo and handleUploadVideo return
their busy failure response, perform no page interaction (the trace is
empty) and leave the controller state untouched — the state has no queue
and the command is dropped, not queued.  This holds for every command
body, in particular the real one, which only runs on an idle agent. -/
theorem agent_busy_rejected :
    (∀ body st jobId, st.isProcessing = true →
        handleCreateVideo body st jobId = (busyCreateResult, [], st))
    ∧ (∀ body st jobId, st.isUploading = true →
        handleUploadVideo body st jobId = (busyUploadResult, [], st))
    ∧ busyCreateResult.success = false ∧ busyUploadResult.success = false := by
  refine ⟨?_, ?_, rfl, rfl⟩
  · intro body st jobId h
    unfold handleCreateVideo
    rw [if_pos h]
  · intro body st jobId h
    unfold handleUploadVideo
    rw [if_pos h]

theorem agent_busy_rejected_witness :
    handleCreateVideo (fun st => (busyCreateResult, [], st)) busyFlowState "job-1" =
      (busyCreateResult, [], busyFlowState)
    ∧ handleUploadVideo (fun st => (busyUploadResult, [], st)) busyTikTokState "job-1" =
      (busyUploadResult, [], busyTikTokState) :=
  ⟨agent_busy_rejected.1 _ busyFlowState "job-1" rfl,
   agent_busy_rejected.2.1 _ busyTikTokState "job-1" rfl⟩

/-- Claim C9 counterexample: interactions inside a command are not gated
by the 700 ms minimum.  Typing "ab" dispatches input events 30 ms apart
(with the Math.random sample at 0), and two back-to-back clickElement
calls dispatch their clicks 600 ms apart — both below
MIN_ACTION_DELAY_MS, with no enforceRateLimit in between. -/
theorem typing_violates_min_action_delay :
    (typeTextEvents (fun _ => 0) 0 ['a', 'b']).1 =
      [(0, PageEvent.inputEvent), (0, PageEvent.inputEvent),
       (30, PageEvent.inputEvent), (60, PageEvent.changeEvent)]
    ∧ 30 - 0 < MIN_ACTION_DELAY_MS
    ∧ (clickElementEvents 0).1 = [(200, PageEvent.mouseenter), (300, PageEvent.click)]
    ∧ (clickElementEvents ((clickElementEvents 0).2)).1 =
        [(800, PageEvent.mouseenter), (900, PageEvent.click)]
    ∧ 900 - 300 < MIN_ACTION_DELAY_MS := by
  exact ⟨by decide, by decide, by decide, by decide, by decide⟩

/-- Claim C9 amended: the 700 ms minimum delay is enforced once per
command, at its start: enforceRateLimit resumes no earlier than
lastActionTime + MIN_ACTION_DELAY_MS, so the first interaction of a
command starts at least 700 ms after the last recorded action.  Within
a command the pacing is only the fixed short sleeps of the interaction
helpers — consecutive keystrokes are 30 + rand(i) ≤ 80 ms apart. -/
theorem rate_limit_only_at_command_start :
    (∀ lastActionTime now, lastActionTime ≤ now →
        lastActionTime + MIN_ACTION_DELAY_MS ≤ enforceRateLimit lastActionTime now
        ∧ now ≤ enforceRateLimit lastActionTime now)
    ∧ (∀ (rand : Nat → Nat) (i t : Nat) (c1 c2 : Char) (cs : List Char),
        (typeCharsEvents rand i t (c1 :: c2 :: cs)).1.take 2 =
          [(t, PageEvent.inputEvent), (t + (30 + rand i), PageEvent.inputEvent)])
    ∧ (∀ r : Nat, r ≤ 50 → 30 + r < MIN_ACTION_DELAY_MS) := by
  refine ⟨?_, ?_, ?_⟩
  · intro last now h
    by_cases hs : now - last < MIN_ACTION_DELAY_MS
    · unfold enforceRateLimit
      rw [if_pos hs]
      unfold MIN_ACTION_DELAY_MS at hs ⊢
      omega
    · unfold enforceRateLimit
      rw [if_neg hs]
      unfold MIN_ACTION_DELAY_MS at hs ⊢
      omega
  · intro rand i t c1 c2 cs
    simp [typeCharsEvents]
  · intro r h
    unfold MIN_ACTION_DELAY_MS
    omega

theorem rate_limit_only_at_command_start_witness :
    0 + MIN_ACTION_DELAY_MS ≤ enforceRateLimit 0 100 :=
  (rate_limit_only_at_command_start.1 0 100 (by omega)).1

/-- Claim C10: completeJob and failJob unconditionally clear activeJobId
and isProcessing (whatever id is passed, matching a job or not), and
completeJob increments dailyCreated on every invocation while failJob
leaves it alone; cancelJob clears them only when the id equals the
current activeJobId; and in all three operations every job whose id
differs from the argument is left entirely unchanged. -/
theorem terminal_ops_frame (s : QueueState) (id videoUrl : String)
    (thumbnailUrl : Option String) (error : String) (now : Nat) :
    ((completeJob s id videoUrl thumbnailUrl now).activeJobId = none
      ∧ (completeJob s id videoUrl thumbnailUrl now).isProcessing = false
      ∧ (completeJob s id videoUrl thumbnailUrl now).dailyCreated = s.dailyCreated + 1)
    ∧ ((failJob s id error now).activeJobId = none
      ∧ (failJob s id error now).isProcessing = false
      ∧ (failJob s id error now).dailyCreated = s.dailyCreated)
    ∧ ((cancelJob s id now).activeJobId =
          (if s.activeJobId = some id then none else s.activeJobId)
      ∧ (cancelJob s id now).isProcessing =
          (if s.activeJobId = some id then false else s.isProcessing))
    ∧ (∀ (i : Nat) (j : VideoJob), s.jobs[i]? = some j → j.id ≠ id →
        (completeJob s id videoUrl thumbnailUrl now).jobs[i]? = some j
        ∧ (failJob s id error now).jobs[i]? = some j
        ∧ (cancelJob s id now).jobs[i]? = some j) := by
  refine ⟨⟨rfl, rfl, rfl⟩, ⟨rfl, rfl, rfl⟩, ⟨rfl, rfl⟩, ?_⟩
  intro i j hget hne
  refine ⟨?_, ?_, ?_⟩
  · unfold completeJob
    simp [List.getElem?_map, hget, hne]
  · unfold failJob
    simp [List.getElem?_map, hget, hne]
  · unfold cancelJob
    simp [List.getElem?_map, hget, hne]

theorem terminal_ops_frame_witness :
    (completeJob frameState "a" "https://example.com/v.mp4" none 7).activeJobId = none
    ∧ (completeJob frameState "a" "https://example.com/v.mp4" none 7).dailyCreated = 1
    ∧ (completeJob frameState "a" "https://example.com/v.mp4" none 7).jobs[1]? =
        some (mkPendingJob "b") := by
  have h := terminal_ops_frame frameState "a" "https://example.com/v.mp4" none "e" 7
  exact ⟨h.1.1, h.1.2.2, (h.2.2.2 1 (mkPendingJob "b") (by decide) (by decide)).1⟩

/-- Every transition the documented state machine allows preserves the
populated-outcome invariant. -/
lemma guardedStep_preserves {s s2 : QueueState} (hinv : storeInv s)
    (hstep : GuardedStep s s2) : storeInv s2 := by
  cases hstep with
  | add params newId now j s2 hok =>
    unfold addJob at hok
    by_cases hfull : MAX_QUEUE_SIZE ≤ s.jobs.length
    · rw [if_pos hfull] at hok
      exact absurd hok (by simp)
    · rw [if_neg hfull] at hok
      simp only [Except.ok.injEq, Prod.mk.injEq] at hok
      obtain ⟨_, hs⟩ := hok
      subst hs
      intro j2 hj2
      simp only [List.mem_append, List.mem_singleton] at hj2
      cases hj2 with
      | inl hmem => exact hinv j2 hmem
      | inr heq =>
        subst heq
        refine ⟨fun _ => ⟨rfl, rfl⟩, fun h => ?_, fun h => ?_, fun h => ?_⟩
        all_goals exact absurd h (by simp)
  | start id now hguard =>
    intro j2 hj2
    unfold startJob at hj2
    simp only [List.mem_map] at hj2
    obtain ⟨j, hjm, rfl⟩ := hj2
    by_cases hid : j.id = id
    · rw [if_pos hid]
      have hpend := (hinv j hjm).1 (hguard j hjm hid)
      refine ⟨fun h => ?_, fun _ => hpend, fun h => ?_, fun h => ?_⟩
      all_goals exact absurd h (by simp)
    · rw [if_neg hid]
      exact hinv j hjm
  | complete id videoUrl thumbnailUrl now hguard =>
    intro j2 hj2
    unfold completeJob at hj2
    simp only [List.mem_map] at hj2
    obtain ⟨j, hjm, rfl⟩ := hj2
    by_cases hid : j.id = id
    · rw [if_pos hid]
      have hproc := (hinv j hjm).2.1 (hguard j hjm hid)
      refine ⟨fun h => ?_, fun h => ?_, fun _ => ⟨rfl, hproc.2⟩, fun h => ?_⟩
      all_goals exact absurd h (by simp)
    · rw [if_neg hid]
      exact hinv j hjm
  | fail id error now hguard =>
    intro j2 hj2
    unfold failJob at hj2
    simp only [List.mem_map] at hj2
    obtain ⟨j, hjm, rfl⟩ := hj2
    by_cases hid : j.id = id
    · rw [if_pos hid]
      have hproc := (hinv j hjm).2.1 (hguard j hjm hid)
      refine ⟨fun h => ?_, fun h => ?_, fun h => ?_, fun _ => ⟨rfl, hproc.1⟩⟩
      all_goals exact absurd h (by simp)
    · rw [if_neg hid]
      exact hinv j hjm
  | retry id now hguard =>
    intro j2 hj2
    unfold retryJob at hj2
    split at hj2
    · exact hinv j2 hj2
    · split at hj2
      · exact hinv j2 hj2
      · simp only [List.mem_map] at hj2
        obtain ⟨j, hjm, rfl⟩ := hj2
        by_cases hid : j.id = id
        · rw [if_pos hid]
          have hfailed := (hinv j hjm).2.2.2 (hguard j hjm hid)
          refine ⟨fun _ => ⟨hfailed.2, rfl⟩, fun h => ?_, fun h => ?_, fun h => ?_⟩
          all_goals exact absurd h (by simp)
        · rw [if_neg hid]
          exact hinv j hjm
  | cancel id now hguard =>
    intro j2 hj2
    unfold cancelJob at hj2
    simp only [List.mem_map] at hj2
    obtain ⟨j, hjm, rfl⟩ := hj2
    by_cases hid : j.id = id
    · rw [if_pos hid]
      refine ⟨fun h => ?_, fun h => ?_, fun h => ?_, fun h => ?_⟩
      all_goals exact absurd h (by simp)
    · rw [if_neg hid]
      exact hinv j hjm

/-- Claim C2 amended: the operations themselves guard nothing (see the
counterexample), but along every run of the documented state machine the
populated-outcome invariant holds: once a job has left processing, a
completed job carries a videoUrl and no error, a failed job carries an
error and no videoUrl, and never both at once. -/
theorem guarded_runs_preserve_outcome_invariant (s s2 : QueueState)
    (hinv : storeInv s) (hrun : Relation.ReflTransGen GuardedStep s s2) :
    ∀ j ∈ s2.jobs,
      (j.status = JobStatus.completed → j.videoUrl.isSome ∧ j.error = none)
      ∧ (j.status = JobStatus.failed → j.error.isSome ∧ j.videoUrl = none) := by
  have h2 : storeInv s2 := by
    induction hrun with
    | refl => exact hinv
    | tail _ hstep ih => exact guardedStep_preserves ih hstep
  intro j hj
  exact ⟨(h2 j hj).2.2.1, (h2 j hj).2.2.2⟩

theorem guarded_runs_invariant_witness :
    (cexJob1.status = JobStatus.completed → cexJob1.videoUrl.isSome ∧ cexJob1.error = none)
    ∧ (cexJob1.status = JobStatus.failed → cexJob1.error.isSome ∧ cexJob1.videoUrl = none) := by
  have h := guarded_runs_preserve_outcome_invariant initialState cexState1
    (by intro j hj; exact absurd hj (by simp [initialState]))
    (Relation.ReflTransGen.single
      (GuardedStep.add initialState cexParams "job-1" 0 cexJob1 cexState1 (by rfl)))
  exact h cexJob1 (by decide)

/-- The Flow completion loop times out when no poll observes anything. -/
lemma flowWaitLoop_none (isSigned : String → Bool) (pages : Nat → FlowPage) :
    ∀ fuel k, (∀ j, k ≤ j → j < k + fuel → checkCompletionPoll isSigned (pages j) = none) →
      flowWaitLoop isSigned pages fuel k = Except.error "Video generation timed out" := by
  intro fuel
  induction fuel with
  | zero => intro k _; rfl
  | succ n ih =>
    intro k h
    have h0 : checkCompletionPoll isSigned (pages k) = none := h k le_rfl (by omega)
    simp only [flowWaitLoop, h0]
    exact ih (k + 1) (fun j hj1 hj2 => h j (by omega) (by omega))

/-- The Flow completion loop returns the outcome of the first poll on
which a terminal condition fires. -/
lemma flowWaitLoop_first (isSigned : String → Bool) (pages : Nat → FlowPage)
    (r : Except String String) :
    ∀ fuel k k0, k ≤ k0 → k0 < k + fuel →
      (∀ j, k ≤ j → j < k0 → checkCompletionPoll isSigned (pages j) = none) →
      checkCompletionPoll isSigned (pages k0) = some r →
      flowWaitLoop isSigned pages fuel k = r := by
  intro fuel
  induction fuel with
  | zero => intro k k0 h1 h2 _ _; omega
  | succ n ih =>
    intro k k0 h1 h2 hpre hk0
    by_cases heq : k = k0
    · subst heq
      simp only [flowWaitLoop, hk0]
    · have hlt : k < k0 := lt_of_le_of_ne h1 heq
      have h0 : checkCompletionPoll isSigned (pages k) = none := hpre k le_rfl hlt
      simp only [flowWaitLoop, h0]
      exact ih (k + 1) k0 (by omega) (by omega) (fun j hj1 hj2 => hpre j (by omega) hj2) hk0

/-- The TikTok upload loop times out when the success indicator never
appears, whatever else the page shows. -/
lemma uploadWaitLoop_none (pages : Nat → TikTokUploadPage) :
    ∀ fuel k, (∀ j, k ≤ j → j < k + fuel → (pages j).uploadComplete = false) →
      uploadWaitLoop pages fuel k = Except.error "Upload timeout" := by
  intro fuel
  induction fuel with
  | zero => intro k _; rfl
  | succ n ih =>
    intro k h
    have h0 : (pages k).uploadComplete = false := h k le_rfl (by omega)
    simp only [uploadWaitLoop, h0, Bool.false_eq_true, if_false]
    exact ih (k + 1) (fun j hj1 hj2 => h j (by omega) (by omega))

/-- The TikTok upload loop succeeds on the first poll showing the
success indicator. -/
lemma uploadWaitLoop_first (pages : Nat → TikTokUploadPage) :
    ∀ fuel k k0, k ≤ k0 → k0 < k + fuel →
      (∀ j, k ≤ j → j < k0 → (pages j).uploadComplete = false) →
      (pages k0).uploadComplete = true →
      uploadWaitLoop pages fuel k = Except.ok () := by
  intro fuel
  induction fuel with
  | zero => intro k k0 h1 h2 _ _; omega
  | succ n ih =>
    intro k k0 h1 h2 hpre hk0
    by_cases heq : k = k0
    · subst heq
      simp only [uploadWaitLoop, hk0, if_true]
    · have hlt : k < k0 := lt_of_le_of_ne h1 heq
      have h0 : (pages k).uploadComplete = false := hpre k le_rfl hlt
      simp only [uploadWaitLoop, h0, Bool.false_eq_true, if_false]
      exact ih (k + 1) k0 (by omega) (by omega) (fun j hj1 hj2 => hpre j (by omega) hj2) hk0

/-- Claim C8 counterexample: the upload agent loop,
TikTokController.waitForUploadComplete, never reads the error element.
On a page whose error indicator is present from the first poll and whose
success indicator never appears, it polls for its full 60-second bound
(not 5 minutes) and reports the generic timeout, not the page-reported
error. -/
theorem upload_loop_ignores_error_indicator :
    errorOnlyUploadPage.errorText = some (some "Post failed by page")
    ∧ waitForUploadComplete (fun _ => errorOnlyUploadPage) = Except.error "Upload timeout"
    ∧ waitForUploadComplete (fun _ => errorOnlyUploadPage) ≠
        Except.error "Post failed by page" := by
  have ht : waitForUploadComplete (fun _ => errorOnlyUploadPage) =
      Except.error "Upload timeout" :=
    uploadWaitLoop_none (fun _ => errorOnlyUploadPage) UPLOAD_MAX_WAIT_POLLS 0
      (fun j _ _ => rfl)
  refine ⟨rfl, ht, ?_⟩
  rw [ht]
  intro hcontra
  have hmsg : "Upload timeout" = "Post failed by page" := by injection hcontra
  exact absurd hmsg (by decide)

/-- Claim C8 amended: the video-creation agent loop behaves as claimed
under its 5-minute bound (150 polls, 2000 ms apart): it yields the
outcome of the first poll on which a condition fires — success url or
page-reported error, with success checked first — and the generic
timeout when none fires within the bound.  The upload agent loop polls
only for the success indicator, under a 60-second bound, and otherwise
times out; it never surfaces a page-reported error (that check lives in
publishPost, after this loop). -/
theorem completion_loops_first_condition :
    (∀ (isSigned : String → Bool) (pages : Nat → FlowPage) (r : Except String String)
        (k0 : Nat), k0 < FLOW_MAX_WAIT_POLLS →
        (∀ j, j < k0 → checkCompletionPoll isSigned (pages j) = none) →
        checkCompletionPoll isSigned (pages k0) = some r →
        waitForCompletion isSigned pages = r)
    ∧ (∀ (isSigned : String → Bool) (pages : Nat → FlowPage),
        (∀ j, j < FLOW_MAX_WAIT_POLLS → checkCompletionPoll isSigned (pages j) = none) →
        waitForCompletion isSigned pages = Except.error "Video generation timed out")
    ∧ (∀ (pages : Nat → TikTokUploadPage) (k0 : Nat), k0 < UPLOAD_MAX_WAIT_POLLS →
        (∀ j, j < k0 → (pages j).uploadComplete = false) →
        (pages k0).uploadComplete = true →
        waitForUploadComplete pages = Except.ok ())
    ∧ (∀ pages : Nat → TikTokUploadPage,
        (∀ j, j < UPLOAD_MAX_WAIT_POLLS → (pages j).uploadComplete = false) →
        waitForUploadComplete pages = Except.error "Upload timeout")
    ∧ FLOW_MAX_WAIT_POLLS * 2000 = 5 * 60 * 1000
    ∧ UPLOAD_MAX_WAIT_POLLS * 1000 = 60 * 1000 := by
  refine ⟨?_, ?_, ?_, ?_, rfl, rfl⟩
  · intro isSigned pages r k0 hk0 hpre hfire
    exact flowWaitLoop_first isSigned pages r FLOW_MAX_WAIT_POLLS 0 k0
      (Nat.zero_le _) (by omega) (fun j _ hj => hpre j hj) hfire
  · intro isSigned pages hnone
    exact flowWaitLoop_none isSigned pages FLOW_MAX_WAIT_POLLS 0
      (fun j _ hj => hnone j (by omega))
  · intro pages k0 hk0 hpre hfire
    exact uploadWaitLoop_first pages UPLOAD_MAX_WAIT_POLLS 0 k0
      (Nat.zero_le _) (by omega) (fun j _ hj => hpre j hj) hfire
  · intro pages hnone
    exact uploadWaitLoop_none pages UPLOAD_MAX_WAIT_POLLS 0
      (fun j _ hj => hnone j (by omega))

theorem completion_loops_witness :
    waitForCompletion (fun _ => false) (fun _ => emptyFlowPage) =
      Except.error "Video generation timed out" :=
  completion_loops_first_condition.2.1 (fun _ => false) (fun _ => emptyFlowPage)
    (fun _ _ => rfl)

end AffiliatePro
